import Mathlib

/-!
Verification of the GPS recording/session-continuity core of the Strive
fitness-tracking app.  The definitions below are a shallow embedding of
the TypeScript sources:

* `src/frontend/src/services/locationService.ts` (background task,
  session store, pause/resume/stop bookkeeping), and
* `src/frontend/app/(tabs)/record.tsx` (record screen: foreground fix
  filter, distance computation, reconciliation, start and save flows).

Floating-point numbers are modelled by real numbers; JavaScript `Date`
values and `Date.now ()` results by integer epoch milliseconds; `null`
by `Option`.  UI-only state (map region, alerts, vibration, live
activities) is not part of the model.
-/

namespace Strive

open Real

open scoped Classical

/-- One location sample, mirroring the `GPSPoint` interface that both
`locationService.ts` and `record.tsx` declare.  `timestamp` is epoch
milliseconds. -/
structure GPSPoint where
  latitude : ℝ
  longitude : ℝ
  altitude : Option ℝ
  accuracy : Option ℝ
  speed : Option ℝ
  timestamp : ℤ

/-- The durable session record (`SessionData` in `locationService.ts`).
ISO timestamp strings are modelled as epoch milliseconds. -/
structure SessionData where
  isActive : Bool
  isPaused : Bool
  activityType : String
  startTime : Option ℤ
  pausedDuration : ℤ
  lastPauseTime : Option ℤ

/-- The durable key-value store as used by the tracking core: the
`@strive_session_data` key (`sessionData`) and the
`@strive_background_locations` key (`locations`).  An absent locations
key reads back as the empty list, exactly as in the source. -/
structure Store where
  sessionData : Option SessionData
  locations : List GPSPoint

/-- JavaScript `Math.atan2`, restricted to non-NaN inputs. -/
noncomputable def atan2 (y x : ℝ) : ℝ :=
  if 0 < x then Real.arctan (y / x)
  else if x < 0 ∧ 0 ≤ y then Real.arctan (y / x) + π
  else if x < 0 ∧ y < 0 then Real.arctan (y / x) - π
  else if x = 0 ∧ 0 < y then π / 2
  else if x = 0 ∧ y < 0 then -(π / 2)
  else 0

/-- `calculateDistance` from `record.tsx` (lines 267-280): Haversine
great-circle distance in meters with mean Earth radius `6371e3`. -/
noncomputable def calculateDistance (lat1 lon1 lat2 lon2 : ℝ) : ℝ :=
  let R : ℝ := 6371e3
  let phi1 := lat1 * π / 180
  let phi2 := lat2 * π / 180
  let deltaPhi := (lat2 - lat1) * π / 180
  let deltaLambda := (lon2 - lon1) * π / 180
  let a := Real.sin (deltaPhi / 2) * Real.sin (deltaPhi / 2) +
    Real.cos phi1 * Real.cos phi2 * Real.sin (deltaLambda / 2) * Real.sin (deltaLambda / 2)
  let c := 2 * atan2 (Real.sqrt a) (Real.sqrt (1 - a))
  R * c

/-- `calculateTotalDistance` from `record.tsx` (lines 282-293): the sum
of `calculateDistance` over consecutive pairs of the point list. -/
noncomputable def calculateTotalDistance : List GPSPoint → ℝ
  | p :: q :: rest =>
      calculateDistance p.latitude p.longitude q.latitude q.longitude +
        calculateTotalDistance (q :: rest)
  | _ => 0

theorem calculateDistance_self (lat lon : ℝ) : calculateDistance lat lon lat lon = 0 := by
  simp only [calculateDistance, sub_self, zero_mul, zero_div, Real.sin_zero, mul_zero,
    zero_add, add_zero, Real.sqrt_zero, sub_zero, Real.sqrt_one]
  have h1 : (0:ℝ) < 1 := one_pos
  simp [atan2, h1, Real.arctan_zero]

theorem calculateDistance_comm (lat1 lon1 lat2 lon2 : ℝ) :
    calculateDistance lat1 lon1 lat2 lon2 = calculateDistance lat2 lon2 lat1 lon1 := by
  simp only [calculateDistance]
  have h1 : (lat1 - lat2) * π / 180 / 2 = -((lat2 - lat1) * π / 180 / 2) := by ring
  have h2 : (lon1 - lon2) * π / 180 / 2 = -((lon2 - lon1) * π / 180 / 2) := by ring
  have key :
      Real.sin ((lat1 - lat2) * π / 180 / 2) * Real.sin ((lat1 - lat2) * π / 180 / 2) +
        Real.cos (lat2 * π / 180) * Real.cos (lat1 * π / 180) *
          Real.sin ((lon1 - lon2) * π / 180 / 2) * Real.sin ((lon1 - lon2) * π / 180 / 2) =
      Real.sin ((lat2 - lat1) * π / 180 / 2) * Real.sin ((lat2 - lat1) * π / 180 / 2) +
        Real.cos (lat1 * π / 180) * Real.cos (lat2 * π / 180) *
          Real.sin ((lon2 - lon1) * π / 180 / 2) * Real.sin ((lon2 - lon1) * π / 180 / 2) := by
    rw [h1, h2, Real.sin_neg, Real.sin_neg]
    ring
  rw [key]

/-- Concrete evaluation of the Haversine distance from (0°, 0°) to
(90°, 0°): a quarter of a great circle. -/
theorem calculateDistance_equator_pole : calculateDistance 0 0 90 0 = 6371e3 * (π / 2) := by
  simp only [calculateDistance]
  have e1 : ((90:ℝ) - 0) * π / 180 / 2 = π / 4 := by ring
  have e2 : ((0:ℝ) - 0) * π / 180 / 2 = 0 := by ring
  have e3 : (90:ℝ) * π / 180 = π / 2 := by ring
  have e4 : (0:ℝ) * π / 180 = 0 := by ring
  rw [e1, e2, e3, e4, Real.sin_pi_div_four, Real.cos_pi_div_two, Real.sin_zero]
  have ha : Real.sqrt 2 / 2 * (Real.sqrt 2 / 2) + Real.cos 0 * 0 * 0 * 0 = 1 / 2 := by
    have h2 : Real.sqrt 2 * Real.sqrt 2 = 2 := Real.mul_self_sqrt (by norm_num)
    field_simp
  rw [ha]
  have hhalf : (1:ℝ) - 1 / 2 = 1 / 2 := by norm_num
  rw [hhalf]
  have hpos : (0:ℝ) < Real.sqrt (1 / 2) := Real.sqrt_pos.mpr (by norm_num)
  have hne : Real.sqrt (1 / 2) ≠ 0 := ne_of_gt hpos
  rw [atan2, if_pos hpos, div_self hne, Real.arctan_one]
  ring

theorem calculateDistance_equator_pole_pos : 0 < calculateDistance 0 0 90 0 := by
  rw [calculateDistance_equator_pole]
  have h := Real.pi_pos
  nlinarith

theorem calculateDistance_equator_pole_ge_five : 5 ≤ calculateDistance 0 0 90 0 := by
  rw [calculateDistance_equator_pole]
  have h := Real.pi_gt_three
  nlinarith

/-! ## Durable-store operations (`locationService.ts`) -/

/-- The `BACKGROUND_LOCATION_TASK` handler (`locationService.ts` lines
31-66) for a batch of delivered fixes: it reads the session record and,
only when the session is active and not paused, appends the whole batch
(mapped to `GPSPoint`s) to the persisted point list.  `batch` is the
list of `GPSPoint`s built from the delivered `locations`. -/
def backgroundTask (store : Store) (batch : List GPSPoint) : Store :=
  match store.sessionData with
  | some sd =>
      if sd.isActive && !sd.isPaused then
        { store with locations := store.locations ++ batch }
      else store
  | none => store

/-- `LocationService.pauseTracking` (lines 125-134), with `now` the
current epoch-millisecond clock reading. -/
def pauseTracking (store : Store) (now : ℤ) : Store :=
  match store.sessionData with
  | some sd =>
      { store with sessionData := some { sd with isPaused := true, lastPauseTime := some now } }
  | none => store

/-- `LocationService.resumeTracking` (lines 137-154).  `Math.floor` of
the millisecond difference over 1000 is integer division (Lean's `Int`
division by the positive literal 1000 is floor division). -/
def resumeTracking (store : Store) (now : ℤ) : Store :=
  match store.sessionData with
  | some sd =>
      let sd1 :=
        match sd.lastPauseTime with
        | some pauseStart =>
            { sd with pausedDuration := sd.pausedDuration + (now - pauseStart) / 1000 }
        | none => sd
      { store with sessionData := some { sd1 with isPaused := false, lastPauseTime := none } }
  | none => store

/-- `LocationService.stopBackgroundTracking` (lines 157-180): returns
all collected points and clears both storage keys. -/
def stopBackgroundTracking (store : Store) : List GPSPoint × Store :=
  (store.locations, { sessionData := none, locations := [] })

/-- `LocationService.startBackgroundTracking` (lines 72-122): requests
permissions; if the foreground permission is denied it returns `false`
without touching the store; a denied background permission only logs a
warning.  Otherwise it writes a fresh active session record and clears
the persisted point list. -/
def startBackgroundTracking (fgGranted bgGranted : Bool) (activityType : String) (now : ℤ)
    (store : Store) : Bool × Store :=
  if fgGranted = false then (false, store)
  else
    let _ := bgGranted
    (true,
      { sessionData := some
          { isActive := true, isPaused := false, activityType := activityType,
            startTime := some now, pausedDuration := 0, lastPauseTime := none },
        locations := [] })

/-! ## Record screen (`record.tsx`) -/

/-- The `RecordingState` type of `record.tsx`. -/
inductive RecordingState
  | idle
  | recording
  | paused
deriving DecidableEq

/-- The session-relevant mutable state of `RecordScreen`:
`recordingState`, `activityType`, `gpsPoints`, `distance`, `duration`,
`currentSpeed`, `startTimeRef`, `pausedDurationRef`, together with the
durable store the screen shares with the background task.  UI-only
state (map region, current location, `isSaving`) is omitted. -/
structure AppState where
  recordingState : RecordingState
  activityType : String
  gpsPoints : List GPSPoint
  distance : ℝ
  duration : ℤ
  currentSpeed : ℝ
  startTime : Option ℤ
  pausedDurationR : ℤ
  store : Store

/-- The `activityData` object built by `saveActivity` and handed to
`api.post` (lines 525-540). -/
structure ActivityData where
  activity_type : String
  gps_points : List GPSPoint
  distance : ℝ
  duration : ℤ
  avg_speed : ℝ
  start_time : Option ℤ
  end_time : ℤ

/-- Outcome of one `saveActivity` invocation: the insufficient-data
abort, a successful save carrying the posted payload, or an external
persistence failure carrying the payload that was attempted. -/
inductive SaveResult
  | insufficientData
  | saved (data : ActivityData)
  | apiError (data : ActivityData)

/-- The accuracy half of the foreground filter condition
(`newPoint.accuracy === null || newPoint.accuracy < 30`). -/
def accuracyOk : Option ℝ → Prop
  | none => True
  | some a => a < 30

/-- The `setCurrentSpeed` statement of the watch callback: a present,
non-negative m/s reading is converted to km/h. -/
noncomputable def speedUpdate (s : AppState) (p : GPSPoint) : AppState :=
  match p.speed with
  | some sp => if 0 ≤ sp then { s with currentSpeed := sp * 3.6 } else s
  | none => s

/-- One delivery of the `watchPositionAsync` callback of
`startForegroundTracking` (`record.tsx` lines 303-345), restricted to
the modelled state: updates `currentSpeed` via `speedUpdate`, then
appends the fix to `gpsPoints` and adds its distance to the accumulator
exactly when either there is no previous point, or the Haversine
distance from the last accepted point is at least 5 m and the accuracy
is unknown or below 30 m. -/
noncomputable def foregroundUpdate (s : AppState) (p : GPSPoint) : AppState :=
  let s0 := speedUpdate s p
  match s0.gpsPoints.getLast? with
  | some lastPoint =>
      let dist := calculateDistance lastPoint.latitude lastPoint.longitude p.latitude p.longitude
      if 5 ≤ dist ∧ accuracyOk p.accuracy then
        { s0 with gpsPoints := s0.gpsPoints ++ [p], distance := s0.distance + dist }
      else s0
  | none => { s0 with gpsPoints := [p] }

/-- `syncBackgroundPoints` (`record.tsx` lines 191-213): if the
persisted point list is strictly longer than the in-memory one, replace
the in-memory list and recompute the distance from scratch. -/
noncomputable def syncBackgroundPoints (s : AppState) : AppState :=
  let points := s.store.locations
  if s.gpsPoints.length < points.length then
    { s with gpsPoints := points, distance := calculateTotalDistance points }
  else s

/-- `resetRecording` (`record.tsx` lines 483-502): stops the background
task (clearing the durable store) and resets all in-memory session
state to the idle configuration. -/
def resetRecording (s : AppState) : AppState :=
  { recordingState := RecordingState.idle, activityType := s.activityType, gpsPoints := [],
    distance := 0, duration := 0, currentSpeed := 0, startTime := none, pausedDurationR := 0,
    store := (stopBackgroundTracking s.store).2 }

/-- `saveActivity` (`record.tsx` lines 504-581) on a native platform.
`apiOk` models whether `api.post('/activities', ...)` succeeds, `now`
the wall clock at save time.  Note the order of operations taken from
the source: `stopBackgroundTracking` (which clears the durable store)
runs before the point-count check and before the persistence call; on
success the in-memory reset happens only in the alert callback, so the
returned state keeps the in-memory fields. -/
noncomputable def saveActivity (s : AppState) (apiOk : Bool) (now : ℤ) : AppState × SaveResult :=
  let stopped := stopBackgroundTracking s.store
  let backgroundPoints := stopped.1
  let s1 := { s with store := stopped.2 }
  let finalPoints :=
    if s.gpsPoints.length < backgroundPoints.length then backgroundPoints else s.gpsPoints
  if finalPoints.length < 2 then
    (resetRecording s1, SaveResult.insufficientData)
  else
    let avgSpeed : ℝ :=
      if 0 < s.duration then s.distance / 1000 / ((s.duration : ℝ) / 3600) else 0
    let data : ActivityData :=
      { activity_type := s.activityType, gps_points := finalPoints, distance := s.distance,
        duration := s.duration, avg_speed := avgSpeed, start_time := s.startTime,
        end_time := now }
    if apiOk then (s1, SaveResult.saved data) else (s1, SaveResult.apiError data)

/-- `requestPermissions` (`record.tsx` lines 215-265), reduced to its
effect on the `hasPermission` flag: a denied foreground permission
returns early leaving the flag unchanged; once the foreground
permission is granted the flag is set to `true` regardless of the
background permission outcome (which only triggers an alert). -/
def requestPermissions (fgGranted bgGranted hasPermission : Bool) : Bool :=
  if fgGranted = false then hasPermission
  else
    let _ := bgGranted
    true

/-- `handleStart` (`record.tsx` lines 367-401): with no permission it
only re-requests permissions and returns, leaving every modelled field
unchanged; otherwise it unconditionally enters `recording`, resets the
in-memory counters and starts the background tracker (whose boolean
result is ignored). -/
def handleStart (s : AppState) (hasPermission fgGranted bgGranted : Bool) (now : ℤ) : AppState :=
  if hasPermission = false then s
  else
    { s with
      recordingState := RecordingState.recording, startTime := some now,
      pausedDurationR := 0, gpsPoints := [], distance := 0, duration := 0,
      store := (startBackgroundTracking fgGranted bgGranted s.activityType now s.store).2 }

/-- Projection on a save outcome: the payload handed to (or attempted
against) the persistence API, if any. -/
def payloadOf : SaveResult → Option ActivityData
  | SaveResult.saved d => some d
  | SaveResult.apiError d => some d
  | SaveResult.insufficientData => none

/-- Discriminator for the persistence-failure outcome. -/
def isApiError : SaveResult → Prop
  | SaveResult.apiError _ => True
  | _ => False

/-! ## Concrete fixtures for witnesses and counterexamples -/

/-- A fix at the origin with unknown accuracy. -/
noncomputable def pOrigin : GPSPoint :=
  { latitude := 0, longitude := 0, altitude := none, accuracy := none, speed := none,
    timestamp := 0 }

/-- A fix at the north pole (90°, 0°), a quarter circle from `pOrigin`. -/
noncomputable def pPole : GPSPoint :=
  { latitude := 90, longitude := 0, altitude := none, accuracy := none, speed := none,
    timestamp := 60000 }

/-- A fix at the same coordinates as `pOrigin` with an accuracy of
100 m: the foreground filter rejects it on both counts. -/
noncomputable def pNoisy : GPSPoint :=
  { latitude := 0, longitude := 0, altitude := none, accuracy := some 100, speed := none,
    timestamp := 120000 }

/-- Three further distinct fixes used in the five-point reconciliation
scenario. -/
noncomputable def pThree : GPSPoint :=
  { latitude := 10, longitude := 10, altitude := none, accuracy := none, speed := none,
    timestamp := 180000 }

noncomputable def pFour : GPSPoint :=
  { latitude := 20, longitude := 20, altitude := none, accuracy := none, speed := none,
    timestamp := 240000 }

noncomputable def pFive : GPSPoint :=
  { latitude := 30, longitude := 30, altitude := none, accuracy := none, speed := none,
    timestamp := 300000 }

/-- An active, unpaused session record. -/
def sdActive : SessionData :=
  { isActive := true, isPaused := false, activityType := "running", startTime := some 0,
    pausedDuration := 0, lastPauseTime := none }

/-- An active but paused session record. -/
def sdPaused : SessionData :=
  { isActive := true, isPaused := true, activityType := "running", startTime := some 0,
    pausedDuration := 0, lastPauseTime := some 500 }

/-- Screen state while recording with no accepted point yet. -/
noncomputable def sEmpty : AppState :=
  { recordingState := RecordingState.recording, activityType := "running", gpsPoints := [],
    distance := 0, duration := 0, currentSpeed := 0, startTime := some 0, pausedDurationR := 0,
    store := { sessionData := some sdActive, locations := [] } }

/-- Screen state while recording with one accepted point. -/
noncomputable def sOne : AppState :=
  { recordingState := RecordingState.recording, activityType := "running",
    gpsPoints := [pOrigin], distance := 0, duration := 0, currentSpeed := 0,
    startTime := some 0, pausedDurationR := 0,
    store := { sessionData := some sdActive, locations := [] } }

/-- Paused screen state with a single accepted point: stop-save from
here hits the insufficient-data branch. -/
noncomputable def sPausedOne : AppState :=
  { recordingState := RecordingState.paused, activityType := "running",
    gpsPoints := [pOrigin], distance := 0, duration := 30, currentSpeed := 0,
    startTime := some 0, pausedDurationR := 0,
    store := { sessionData := some sdPaused, locations := [] } }

/-- Paused screen state whose durable store holds two points while only
one is in memory and the accumulator is still 0 (one foreground point,
one point appended by the background task while suspended). -/
noncomputable def sSync : AppState :=
  { recordingState := RecordingState.paused, activityType := "running",
    gpsPoints := [pOrigin], distance := 0, duration := 10, currentSpeed := 0,
    startTime := some 0, pausedDurationR := 0,
    store := { sessionData := some sdPaused, locations := [pOrigin, pPole] } }

/-- Paused screen state with two in-memory points, a live session
record in the durable store, and an empty persisted point list. -/
noncomputable def sTwo : AppState :=
  { recordingState := RecordingState.paused, activityType := "running",
    gpsPoints := [pOrigin, pPole], distance := 42, duration := 10, currentSpeed := 0,
    startTime := some 0, pausedDurationR := 0,
    store := { sessionData := some sdPaused, locations := [] } }

/-- Recording screen state with three in-memory points while the
durable store holds those three plus two appended by the background
task. -/
noncomputable def sFiveStore : AppState :=
  { recordingState := RecordingState.recording, activityType := "running",
    gpsPoints := [pOrigin, pPole, pThree], distance := 0, duration := 0, currentSpeed := 0,
    startTime := some 0, pausedDurationR := 0,
    store := { sessionData := some sdActive,
               locations := [pOrigin, pPole, pThree, pFour, pFive] } }

/-- Idle screen state before any recording. -/
noncomputable def sIdle : AppState :=
  { recordingState := RecordingState.idle, activityType := "running", gpsPoints := [],
    distance := 0, duration := 0, currentSpeed := 0, startTime := none, pausedDurationR := 0,
    store := { sessionData := none, locations := [] } }

/-! ## Helper lemmas -/

theorem speedUpdate_gpsPoints (s : AppState) (p : GPSPoint) :
    (speedUpdate s p).gpsPoints = s.gpsPoints := by
  cases h : p.speed <;> simp [speedUpdate, h]
  split <;> rfl

theorem speedUpdate_distance (s : AppState) (p : GPSPoint) :
    (speedUpdate s p).distance = s.distance := by
  cases h : p.speed <;> simp [speedUpdate, h]
  split <;> rfl

theorem accuracyOk_iff (o : Option ℝ) :
    accuracyOk o ↔ o = none ∨ ∃ a, o = some a ∧ a < 30 := by
  cases o <;> simp [accuracyOk]

theorem calculateTotalDistance_origin_pole :
    calculateTotalDistance [pOrigin, pPole] = calculateDistance 0 0 90 0 := by
  show calculateDistance pOrigin.latitude pOrigin.longitude pPole.latitude pPole.longitude +
      calculateTotalDistance [pPole] = calculateDistance 0 0 90 0
  show calculateDistance pOrigin.latitude pOrigin.longitude pPole.latitude pPole.longitude +
      0 = calculateDistance 0 0 90 0
  rw [add_zero]
  rfl

/-! ## Claim theorems -/

/-- Claim C9 (confirmed): the geodesic distance calculator is symmetric
in its two endpoints, and returns 0 for every pair of coincident
points (proved for all real coordinates, hence in particular for all
valid latitude/longitude pairs). -/
theorem distance_symm_and_coincident_zero :
    (∀ lat1 lon1 lat2 lon2 : ℝ,
      calculateDistance lat1 lon1 lat2 lon2 = calculateDistance lat2 lon2 lat1 lon1) ∧
    (∀ lat lon : ℝ, calculateDistance lat lon lat lon = 0) :=
  ⟨calculateDistance_comm, calculateDistance_self⟩

/-- Claim C10 (confirmed): an invocation of the background location
task leaves the persisted point list untouched whenever the stored
session record is absent, inactive, or paused; when the session is
active and unpaused it appends the delivered batch after the existing
points, so the prior stored sequence is kept as a prefix. -/
theorem backgroundTask_frame (store : Store) (batch : List GPSPoint) :
    (store.sessionData = none → backgroundTask store batch = store) ∧
    (∀ sd, store.sessionData = some sd → sd.isActive = false ∨ sd.isPaused = true →
      backgroundTask store batch = store) ∧
    (∀ sd, store.sessionData = some sd → sd.isActive = true → sd.isPaused = false →
      (backgroundTask store batch).locations = store.locations ++ batch ∧
      (backgroundTask store batch).locations.take store.locations.length = store.locations) := by
  refine ⟨?_, ?_, ?_⟩
  · intro h
    simp [backgroundTask, h]
  · intro sd h hoff
    rcases hoff with h1 | h1 <;> simp [backgroundTask, h, h1]
  · intro sd h hA hP
    have hloc : (backgroundTask store batch).locations = store.locations ++ batch := by
      simp [backgroundTask, h, hA, hP]
    exact ⟨hloc, by rw [hloc, List.take_left]⟩

/-- Witness for C10 at concrete inputs: a paused session blocks the
append, an active one appends the batch behind the stored points. -/
theorem backgroundTask_frame_witness :
    backgroundTask { sessionData := some sdPaused, locations := [pOrigin] } [pPole] =
      { sessionData := some sdPaused, locations := [pOrigin] } ∧
    (backgroundTask { sessionData := some sdActive, locations := [pOrigin] } [pPole]).locations =
      [pOrigin] ++ [pPole] := by
  constructor
  · exact (backgroundTask_frame _ _).2.1 sdPaused rfl (Or.inr rfl)
  · exact ((backgroundTask_frame _ _).2.2 sdActive rfl rfl rfl).1

/-- Claim C2 is false on the code: the background task appends `pNoisy`
even though it is 0 m away from the previous persisted point and has a
reported accuracy of 100 m, i.e. it fails both halves of the foreground
accept condition. -/
theorem background_not_filtered_counterexample :
    (backgroundTask { sessionData := some sdActive, locations := [pOrigin] } [pNoisy]).locations =
      [pOrigin, pNoisy] ∧
    calculateDistance pOrigin.latitude pOrigin.longitude pNoisy.latitude pNoisy.longitude = 0 ∧
    ¬(5 ≤ calculateDistance pOrigin.latitude pOrigin.longitude pNoisy.latitude pNoisy.longitude ∧
      accuracyOk pNoisy.accuracy) := by
  have hd : calculateDistance pOrigin.latitude pOrigin.longitude pNoisy.latitude
      pNoisy.longitude = 0 := calculateDistance_self 0 0
  refine ⟨by simp [backgroundTask, sdActive], hd, ?_⟩
  rintro ⟨h5, -⟩
  rw [hd] at h5
  norm_num at h5

/-- Claim C2 amended (proved): whenever the stored session is active
and unpaused, the background callback appends every delivered fix with
no distance or accuracy filtering; in particular every fix of the batch
ends up in the persisted sequence. -/
theorem backgroundTask_appends_unfiltered (store : Store) (sd : SessionData)
    (batch : List GPSPoint) (h : store.sessionData = some sd) (hA : sd.isActive = true)
    (hP : sd.isPaused = false) :
    (backgroundTask store batch).locations = store.locations ++ batch ∧
    ∀ p ∈ batch, p ∈ (backgroundTask store batch).locations := by
  have hloc : (backgroundTask store batch).locations = store.locations ++ batch := by
    simp [backgroundTask, h, hA, hP]
  refine ⟨hloc, fun p hp => ?_⟩
  rw [hloc]
  exact List.mem_append_right _ hp

/-- Witness for the amended C2: the rejected-by-the-filter fix `pNoisy`
is nevertheless appended by the background task. -/
theorem backgroundTask_appends_unfiltered_witness :
    (backgroundTask { sessionData := some sdActive, locations := [pOrigin] } [pNoisy]).locations =
      [pOrigin] ++ [pNoisy] :=
  (backgroundTask_appends_unfiltered _ sdActive [pNoisy] rfl rfl rfl).1

/-- Claim C5 (confirmed): whenever the persisted point sequence is
strictly longer than the in-memory list, foreground-resume
reconciliation replaces the in-memory list by the full persisted
sequence and recomputes the accumulated distance as the sum of the
Haversine distances over all consecutive pairs of that sequence
(`calculateTotalDistance`). -/
theorem sync_replaces_and_recomputes (s : AppState)
    (h : s.gpsPoints.length < s.store.locations.length) :
    (syncBackgroundPoints s).gpsPoints = s.store.locations ∧
    (syncBackgroundPoints s).distance = calculateTotalDistance s.store.locations := by
  simp [syncBackgroundPoints, h]

/-- Witness for C5: the spec scenario with 3 foreground points in
memory and 5 points (3 + 2 background) in the store: reconciliation
reports all 5 points and a distance recomputed from the 5-point
sequence. -/
theorem sync_replaces_and_recomputes_witness :
    sFiveStore.gpsPoints.length = 3 ∧ sFiveStore.store.locations.length = 5 ∧
    (syncBackgroundPoints sFiveStore).gpsPoints = sFiveStore.store.locations ∧
    (syncBackgroundPoints sFiveStore).distance =
      calculateTotalDistance sFiveStore.store.locations := by
  have h : sFiveStore.gpsPoints.length < sFiveStore.store.locations.length := by
    simp [sFiveStore]
  exact ⟨by simp [sFiveStore], by simp [sFiveStore],
    (sync_replaces_and_recomputes sFiveStore h).1, (sync_replaces_and_recomputes sFiveStore h).2⟩

/-- Claim C8 (confirmed): for a stored session, pausing and then
resuming at the same wall-clock instant `t` leaves the accumulated
paused duration unchanged (the floor of 0/1000 seconds, i.e. exactly 0,
is added) while clearing the paused flag and the pause timestamp. -/
theorem pause_resume_same_instant (store : Store) (sd : SessionData) (t : ℤ)
    (h : store.sessionData = some sd) :
    (resumeTracking (pauseTracking store t) t).sessionData =
      some { sd with isPaused := false, lastPauseTime := none } := by
  simp [pauseTracking, resumeTracking, h]

/-- Witness for C8 on a concrete active session and instant. -/
theorem pause_resume_same_instant_witness :
    (resumeTracking (pauseTracking { sessionData := some sdActive, locations := [] } 98765)
        98765).sessionData =
      some { sdActive with isPaused := false, lastPauseTime := none } :=
  pause_resume_same_instant _ sdActive 98765 rfl

/-- Claim C7 is false on the code for the background half: with the
foreground permission granted but the background permission refused,
`requestPermissions` still sets the permission flag, and `handleStart`
then leaves `idle` and enters `recording`. -/
theorem background_denied_still_starts_counterexample :
    requestPermissions true false false = true ∧
    sIdle.recordingState = RecordingState.idle ∧
    (handleStart sIdle true true false 0).recordingState = RecordingState.recording := by
  refine ⟨rfl, rfl, ?_⟩
  simp [handleStart]

/-- Claim C7 amended (proved): `start` aborts with no state transition
only for a missing (foreground) permission: with the permission flag
unset `handleStart` returns the state unchanged — in particular an idle
controller stays idle — and a refused foreground permission leaves the
flag unset; a refused background permission alone does not make
`requestPermissions` withhold the flag. -/
theorem start_aborts_only_without_foreground_permission (s : AppState) (fg bg : Bool) (now : ℤ)
    (h : s.recordingState = RecordingState.idle) :
    handleStart s false fg bg now = s ∧
    (handleStart s false fg bg now).recordingState = RecordingState.idle ∧
    requestPermissions false bg false = false := by
  have hs : handleStart s false fg bg now = s := by simp [handleStart]
  exact ⟨hs, by rw [hs, h], rfl⟩

/-- Witness for the amended C7 at a concrete idle state with every
permission refused. -/
theorem start_aborts_only_without_foreground_permission_witness :
    handleStart sIdle false false false 0 = sIdle ∧
    (handleStart sIdle false false false 0).recordingState = RecordingState.idle ∧
    requestPermissions false false false = false :=
  start_aborts_only_without_foreground_permission sIdle false false 0 rfl

/-- Reduction of `saveActivity` on the insufficient-data branch: fewer
than 2 reconciled points lead to `resetRecording` of the
already-cleared state. -/
theorem saveActivity_insufficient (s : AppState) (apiOk : Bool) (now : ℤ)
    (h : (if s.gpsPoints.length < s.store.locations.length then s.store.locations
          else s.gpsPoints).length < 2) :
    saveActivity s apiOk now =
      (resetRecording { s with store := { sessionData := none, locations := [] } },
        SaveResult.insufficientData) := by
  simp only [saveActivity, stopBackgroundTracking]
  rw [if_pos h]

/-- Reduction of `saveActivity` when at least 2 reconciled points
exist: the store is cleared, the in-memory fields are kept, and the
payload carries the accumulator distance and the reconciled points. -/
theorem saveActivity_enough (s : AppState) (apiOk : Bool) (now : ℤ)
    (h : ¬(if s.gpsPoints.length < s.store.locations.length then s.store.locations
           else s.gpsPoints).length < 2) :
    saveActivity s apiOk now =
      ({ s with store := { sessionData := none, locations := [] } },
        (if apiOk then SaveResult.saved else SaveResult.apiError)
          { activity_type := s.activityType,
            gps_points := if s.gpsPoints.length < s.store.locations.length
              then s.store.locations else s.gpsPoints,
            distance := s.distance, duration := s.duration,
            avg_speed := if 0 < s.duration then s.distance / 1000 / ((s.duration : ℝ) / 3600)
              else 0,
            start_time := s.startTime, end_time := now }) := by
  simp only [saveActivity, stopBackgroundTracking]
  rw [if_neg h]
  cases apiOk <;> simp

/-- Claim C1 is false on the code: from a paused session with a single
accepted point, stop-save does fail with the insufficient-data outcome,
but the session does not remain paused — `resetRecording` is invoked,
the controller transitions to idle and the durable session record is
cleared. -/
theorem insufficient_data_resets_counterexample :
    sPausedOne.recordingState = RecordingState.paused ∧
    (saveActivity sPausedOne true 1000).2 = SaveResult.insufficientData ∧
    (saveActivity sPausedOne true 1000).1.recordingState = RecordingState.idle ∧
    (saveActivity sPausedOne true 1000).1.store.sessionData = none := by
  have h : (if sPausedOne.gpsPoints.length < sPausedOne.store.locations.length
      then sPausedOne.store.locations else sPausedOne.gpsPoints).length < 2 := by
    simp [sPausedOne]
  have he := saveActivity_insufficient sPausedOne true 1000 h
  refine ⟨rfl, ?_, ?_, ?_⟩ <;> rw [he] <;> simp [resetRecording, stopBackgroundTracking]

/-- Claim C1 amended (proved): with fewer than 2 reconciled points at
stop-save the operation fails with the insufficient-data outcome and no
activity payload is produced, but the session does not stay in its
previous state: it is reset — the controller becomes idle, the
in-memory points and distance are cleared and the durable store is
wiped. -/
theorem insufficient_data_aborts_and_resets (s : AppState) (apiOk : Bool) (now : ℤ)
    (h : (if s.gpsPoints.length < s.store.locations.length then s.store.locations
          else s.gpsPoints).length < 2) :
    (saveActivity s apiOk now).2 = SaveResult.insufficientData ∧
    payloadOf (saveActivity s apiOk now).2 = none ∧
    (saveActivity s apiOk now).1.recordingState = RecordingState.idle ∧
    (saveActivity s apiOk now).1.gpsPoints = [] ∧
    (saveActivity s apiOk now).1.distance = 0 ∧
    (saveActivity s apiOk now).1.store = { sessionData := none, locations := [] } := by
  have he := saveActivity_insufficient s apiOk now h
  refine ⟨?_, ?_, ?_, ?_, ?_, ?_⟩ <;> rw [he] <;>
    simp [resetRecording, stopBackgroundTracking, payloadOf]

/-- Witness for the amended C1 at the concrete one-point paused
state. -/
theorem insufficient_data_aborts_and_resets_witness :
    (saveActivity sPausedOne false 2000).2 = SaveResult.insufficientData ∧
    payloadOf (saveActivity sPausedOne false 2000).2 = none ∧
    (saveActivity sPausedOne false 2000).1.recordingState = RecordingState.idle ∧
    (saveActivity sPausedOne false 2000).1.gpsPoints = [] ∧
    (saveActivity sPausedOne false 2000).1.distance = 0 ∧
    (saveActivity sPausedOne false 2000).1.store = { sessionData := none, locations := [] } :=
  insufficient_data_aborts_and_resets sPausedOne false 2000 (by simp [sPausedOne])

/-- Claim C3 is false on the code: from a state with one in-memory
point, a zero accumulator and two persisted points, stop-save posts the
two reconciled points together with a distance of 0, while the
Haversine sum over the reconciled sequence is strictly positive. -/
theorem saved_distance_not_recomputed_counterexample :
    (payloadOf (saveActivity sSync true 1000).2).map ActivityData.distance = some 0 ∧
    (payloadOf (saveActivity sSync true 1000).2).map ActivityData.gps_points =
      some [pOrigin, pPole] ∧
    calculateTotalDistance [pOrigin, pPole] ≠ 0 := by
  have h : ¬(if sSync.gpsPoints.length < sSync.store.locations.length
      then sSync.store.locations else sSync.gpsPoints).length < 2 := by
    simp [sSync]
  have he := saveActivity_enough sSync true 1000 h
  refine ⟨?_, ?_, ?_⟩
  · rw [he]
    simp [payloadOf, sSync]
  · rw [he]
    simp [payloadOf, sSync]
  · rw [calculateTotalDistance_origin_pole]
    exact ne_of_gt calculateDistance_equator_pole_pos

/-- Claim C3 amended (proved): the distance placed in the posted
payload at stop-save is the in-memory incremental accumulator
`s.distance`, not a recomputation; the point list is the reconciled
final sequence, which can make the two quantities disagree. -/
theorem saved_distance_is_accumulator (s : AppState) (apiOk : Bool) (now : ℤ)
    (h : ¬(if s.gpsPoints.length < s.store.locations.length then s.store.locations
           else s.gpsPoints).length < 2) :
    (payloadOf (saveActivity s apiOk now).2).map ActivityData.distance = some s.distance ∧
    (payloadOf (saveActivity s apiOk now).2).map ActivityData.gps_points =
      some (if s.gpsPoints.length < s.store.locations.length then s.store.locations
            else s.gpsPoints) := by
  rw [saveActivity_enough s apiOk now h]
  cases apiOk <;> simp [payloadOf]

/-- Witness for the amended C3 at the concrete reconciliation state. -/
theorem saved_distance_is_accumulator_witness :
    (payloadOf (saveActivity sSync false 1000).2).map ActivityData.distance =
      some sSync.distance ∧
    (payloadOf (saveActivity sSync false 1000).2).map ActivityData.gps_points =
      some (if sSync.gpsPoints.length < sSync.store.locations.length
            then sSync.store.locations else sSync.gpsPoints) :=
  saved_distance_is_accumulator sSync false 1000 (by simp [sSync])

/-- Claim C4 is false on the code for its durable-store half: on a
persistence failure at stop-save the in-memory state survives, but the
durable session store has already been wiped (by
`stopBackgroundTracking`) before the persistence call, not kept until
the save succeeds. -/
theorem store_cleared_before_persistence_counterexample :
    sTwo.store.sessionData = some sdPaused ∧
    isApiError (saveActivity sTwo false 1000).2 ∧
    (saveActivity sTwo false 1000).1.store.sessionData = none ∧
    (saveActivity sTwo false 1000).1.store.locations = [] := by
  have h : ¬(if sTwo.gpsPoints.length < sTwo.store.locations.length
      then sTwo.store.locations else sTwo.gpsPoints).length < 2 := by
    simp [sTwo]
  have he := saveActivity_enough sTwo false 1000 h
  refine ⟨rfl, ?_, ?_, ?_⟩ <;> simp [he, isApiError]

/-- Claim C4 amended (proved): on a persistence failure during
stop-save the in-memory state (recording state, point list, distance,
duration) is preserved so a retry can be attempted, but the durable
session store has already been cleared before the persistence attempt
rather than being kept until the summary is persisted. -/
theorem api_failure_preserves_memory_but_clears_store (s : AppState) (now : ℤ)
    (h : ¬(if s.gpsPoints.length < s.store.locations.length then s.store.locations
           else s.gpsPoints).length < 2) :
    isApiError (saveActivity s false now).2 ∧
    (saveActivity s false now).1.recordingState = s.recordingState ∧
    (saveActivity s false now).1.gpsPoints = s.gpsPoints ∧
    (saveActivity s false now).1.distance = s.distance ∧
    (saveActivity s false now).1.duration = s.duration ∧
    (saveActivity s false now).1.store = { sessionData := none, locations := [] } := by
  rw [saveActivity_enough s false now h]
  simp [isApiError]

/-- Witness for the amended C4 at the concrete two-point paused
state. -/
theorem api_failure_preserves_memory_but_clears_store_witness :
    isApiError (saveActivity sTwo false 3000).2 ∧
    (saveActivity sTwo false 3000).1.recordingState = sTwo.recordingState ∧
    (saveActivity sTwo false 3000).1.gpsPoints = sTwo.gpsPoints ∧
    (saveActivity sTwo false 3000).1.distance = sTwo.distance ∧
    (saveActivity sTwo false 3000).1.duration = sTwo.duration ∧
    (saveActivity sTwo false 3000).1.store = { sessionData := none, locations := [] } :=
  api_failure_preserves_memory_but_clears_store sTwo 3000 (by simp [sTwo])

/-- Claim C6 (confirmed): the foreground watch callback accepts a fix
unconditionally when there is no previous accepted fix; with a previous
accepted fix it appends the new point and adds the Haversine distance
to the accumulator exactly when that distance is at least 5 m and the
fix's accuracy is unknown or below 30 m; a rejected fix changes neither
the accepted point sequence nor the distance accumulator. -/
theorem foreground_filter_spec (s : AppState) (p : GPSPoint) :
    (s.gpsPoints = [] →
      (foregroundUpdate s p).gpsPoints = [p] ∧
      (foregroundUpdate s p).distance = s.distance) ∧
    (∀ l, s.gpsPoints.getLast? = some l →
      ((5 ≤ calculateDistance l.latitude l.longitude p.latitude p.longitude ∧
          (p.accuracy = none ∨ ∃ a, p.accuracy = some a ∧ a < 30)) →
        (foregroundUpdate s p).gpsPoints = s.gpsPoints ++ [p] ∧
        (foregroundUpdate s p).distance =
          s.distance + calculateDistance l.latitude l.longitude p.latitude p.longitude) ∧
      (¬(5 ≤ calculateDistance l.latitude l.longitude p.latitude p.longitude ∧
          (p.accuracy = none ∨ ∃ a, p.accuracy = some a ∧ a < 30)) →
        (foregroundUpdate s p).gpsPoints = s.gpsPoints ∧
        (foregroundUpdate s p).distance = s.distance)) := by
  have hg := speedUpdate_gpsPoints s p
  have hd := speedUpdate_distance s p
  constructor
  · intro h
    simp only [foregroundUpdate]
    rw [hg, h]
    simp only [List.getLast?_nil]
    exact ⟨trivial, hd⟩
  · intro l hl
    constructor
    · intro hacc
      have hOk : accuracyOk p.accuracy := (accuracyOk_iff p.accuracy).mpr hacc.2
      simp only [foregroundUpdate]
      rw [hg, hd, hl]
      simp only []
      rw [if_pos ⟨hacc.1, hOk⟩]
      exact ⟨rfl, rfl⟩
    · intro hacc
      have hOk : ¬(5 ≤ calculateDistance l.latitude l.longitude p.latitude p.longitude ∧
          accuracyOk p.accuracy) := by
        rintro ⟨h5, ha⟩
        exact hacc ⟨h5, (accuracyOk_iff p.accuracy).mp ha⟩
      simp only [foregroundUpdate]
      rw [hg, hd, hl]
      simp only []
      rw [if_neg hOk]
      exact ⟨hg, hd⟩

/-- Witness for C6: the first fix is accepted unconditionally; a fix a
quarter circle away with unknown accuracy is accepted and adds its
distance; a coincident fix with 100 m accuracy is rejected and changes
nothing. -/
theorem foreground_filter_spec_witness :
    ((foregroundUpdate sEmpty pOrigin).gpsPoints = [pOrigin] ∧
      (foregroundUpdate sEmpty pOrigin).distance = sEmpty.distance) ∧
    ((foregroundUpdate sOne pPole).gpsPoints = sOne.gpsPoints ++ [pPole] ∧
      (foregroundUpdate sOne pPole).distance = sOne.distance +
        calculateDistance pOrigin.latitude pOrigin.longitude pPole.latitude pPole.longitude) ∧
    ((foregroundUpdate sOne pNoisy).gpsPoints = sOne.gpsPoints ∧
      (foregroundUpdate sOne pNoisy).distance = sOne.distance) := by
  refine ⟨(foreground_filter_spec sEmpty pOrigin).1 rfl, ?_, ?_⟩
  · refine ((foreground_filter_spec sOne pPole).2 pOrigin (by simp [sOne])).1 ⟨?_, Or.inl rfl⟩
    simpa using calculateDistance_equator_pole_ge_five
  · refine ((foreground_filter_spec sOne pNoisy).2 pOrigin (by simp [sOne])).2 ?_
    rintro ⟨h5, -⟩
    have hzero : calculateDistance pOrigin.latitude pOrigin.longitude pNoisy.latitude
        pNoisy.longitude = 0 := calculateDistance_self 0 0
    rw [hzero] at h5
    norm_num at h5

end Strive
